import Mathlib

/-!
Verification of the responsive tab-grid layout module of the OHIF side panel
(`SidePanel` component). The layout arithmetic — per-tab width, grid width,
column count, and the centering offset of the tab grid — is embedded as pure
functions over natural numbers (all widths and counts are nonnegative
integers), with the centering offset carried in `ℚ` because the source
divides by 2 without flooring the quotient.
-/

namespace TabGridLayout

/-- Module constant: px width of a separator between same-row tabs. -/
def tabSpacerWidth : ℕ := 2

/-- Module constant: px width reserved for the collapse control. -/
def closeIconWidth : ℕ := 30

/-- Embeds `getTabWidth`: 68 px when fewer than 3 tabs, else 40 px. -/
def getTabWidth (numTabs : ℕ) : ℕ :=
  if numTabs < 3 then 68 else 40

/-- Embeds `getGridWidth`: the natural width (all tabs plus one spacer
between each adjacent pair) when the available width exceeds it, otherwise
the available width. -/
def getGridWidth (numTabs gridAvailableWidth : ℕ) : ℕ :=
  let spacersWidth := (numTabs - 1) * tabSpacerWidth
  let tabsWidth := getTabWidth numTabs * numTabs
  if gridAvailableWidth > tabsWidth + spacersWidth then
    tabsWidth + spacersWidth
  else
    gridAvailableWidth

/-- Embeds `getNumGridColumns`: 1 for a single tab; otherwise the floor
count assuming one spacer per tab, corrected upward when one more tab fits
with one fewer spacer. -/
def getNumGridColumns (numTabs gridWidth : ℕ) : ℕ :=
  if numTabs = 1 then
    1
  else
    let tabWidth := getTabWidth numTabs
    let numTabsWithOneSpacerEach := gridWidth / (tabWidth + tabSpacerWidth)
    if (numTabsWithOneSpacerEach + 1) * tabWidth +
        numTabsWithOneSpacerEach * tabSpacerWidth ≤ gridWidth then
      numTabsWithOneSpacerEach + 1
    else
      numTabsWithOneSpacerEach

/-- The style object produced by `getGridStyle`: a relative position with
the inset applied on the `right` edge for the left panel and on the `left`
edge for the right panel, and the grid width. The inset is rational because
the source computes `Math.floor(expandedWidth - gridWidth) / 2 - closeIconWidth`,
flooring the difference but not the quotient. -/
structure GridStyle where
  isRightInset : Bool
  inset : ℚ
  width : ℕ
deriving DecidableEq, Repr

/-- Embeds `getGridStyle`. The floor is applied to the subtraction only, as
written in the source, so the division by 2 can leave a fractional part. -/
def getGridStyle (side : String) (numTabs gridWidth expandedWidth : ℕ) :
    GridStyle :=
  let relativePosition : ℚ :=
    max 0 ((⌊(expandedWidth : ℚ) - (gridWidth : ℚ)⌋ : ℚ) / 2 -
      (closeIconWidth : ℚ))
  { isRightInset := side == "left"
    inset := relativePosition
    width := gridWidth }

/-- Offset as the specification words it:
`max(0, floor((expandedPanelWidth - gridWidth) / 2) - closeControlWidth)`,
with the floor around the halved difference. Stated for comparison with
`getGridStyle`. -/
def specHorizontalOffset (expandedWidth gridWidth : ℕ) : ℤ :=
  max 0 (((expandedWidth : ℤ) - (gridWidth : ℤ)).fdiv 2 - 30)

/-- Column-count formula as the specification words it: 1 for a single tab;
otherwise `k = floor(gridWidth / (w + 2))`, returning `k + 1` when
`(k + 1) * w + k * 2 ≤ gridWidth` and `k` otherwise. Stated for comparison
with `getNumGridColumns`. -/
def columnCountSpec (numTabs gridWidth : ℕ) : ℕ :=
  if numTabs = 1 then
    1
  else
    let w := getTabWidth numTabs
    let k := gridWidth / (w + 2)
    if (k + 1) * w + k * 2 ≤ gridWidth then k + 1 else k

/-- Embeds the class-name computation of `getTabClassNames` as the list of
conditional class names attached to a tab cell. -/
def getTabClassNames (numColumns numTabs tabIndex : ℕ)
    (isActiveTab isTabDisabled : Bool) : List String :=
  ["h-[28px] mb-[2px] cursor-pointer text-black bg-white"] ++
  (if !isActiveTab && !isTabDisabled then ["hover:text-primary-active"]
   else []) ++
  (if tabIndex % numColumns = 0 then ["rounded-l"] else []) ++
  (if (tabIndex + 1) % numColumns = 0 ∨ tabIndex = numTabs - 1 then
    ["rounded-r"] else [])

/-- Embeds the spacer-cell guard of `getTabGridComponent`: a spacer cell is
rendered before a tab exactly when `tabIndex % numCols !== 0`. -/
def renderSpacerBefore (numCols tabIndex : ℕ) : Bool :=
  tabIndex % numCols != 0

end TabGridLayout

namespace TabGridLayout

/-- C1: for every `numberOfTabs ≥ 1` and `gridWidth ≥ 0`, the column count
computed by the code equals the specification's formula: 1 when there is a
single tab; otherwise `k + 1` when `(k + 1) * w + k * 2 ≤ gridWidth` for
`w = tabWidth(numberOfTabs)` and `k = floor(gridWidth / (w + 2))`, and `k`
otherwise. -/
theorem getNumGridColumns_eq_columnCountSpec (n g : ℕ) (h : 1 ≤ n) :
    getNumGridColumns n g = columnCountSpec n g := rfl

/-- Witness for C1 at the concrete input `numberOfTabs = 5`,
`gridWidth = 208`. -/
theorem getNumGridColumns_eq_columnCountSpec_witness :
    1 ≤ 5 ∧ getNumGridColumns 5 208 = columnCountSpec 5 208 :=
  ⟨by decide, getNumGridColumns_eq_columnCountSpec 5 208 (by decide)⟩

/-- C2 counterexample: with two tabs and `gridWidth = 0` the code returns a
column count of 0, not at least 1 — no clamping to 1 happens. -/
theorem getNumGridColumns_two_tabs_zero_width :
    getNumGridColumns 2 0 = 0 := by decide

/-- C2 amended: for every `numberOfTabs ≥ 2`, the column count is at least
1 whenever `gridWidth ≥ tabWidth(numberOfTabs)`; when `gridWidth` is
smaller than one tab's width the code returns 0. -/
theorem getNumGridColumns_pos_of_tab_fits (n g : ℕ) (h2 : 2 ≤ n)
    (hw : getTabWidth n ≤ g) : 1 ≤ getNumGridColumns n g := by
  have hn : ¬ n = 1 := by omega
  simp only [getNumGridColumns, hn, if_false]
  set k := g / (getTabWidth n + tabSpacerWidth) with hk
  split
  · exact Nat.le_add_left 1 _
  · rename_i hcheck
    rcases Nat.eq_zero_or_pos k with hk0 | hk1
    · rw [hk0] at hcheck
      simp only [tabSpacerWidth, Nat.zero_add, Nat.one_mul,
        Nat.zero_mul, Nat.add_zero] at hcheck
      omega
    · omega

/-- Witness for the amended C2 at `numberOfTabs = 2`, `gridWidth = 68`. -/
theorem getNumGridColumns_pos_of_tab_fits_witness :
    2 ≤ 2 ∧ getTabWidth 2 ≤ 68 ∧ 1 ≤ getNumGridColumns 2 68 :=
  ⟨by decide, by decide,
    getNumGridColumns_pos_of_tab_fits 2 68 (by decide) (by decide)⟩

/-- C3: the code's inset diverges from the specification's
`max(0, floor((expandedPanelWidth - gridWidth) / 2) - 30)`. At
`expandedPanelWidth = 271`, `gridWidth = 208` the code yields the
non-integer 3/2, while the specification's formula yields 1: the source
floors the subtraction instead of the halved quotient. -/
theorem getGridStyle_inset_fractional_at_271_208 :
    (getGridStyle "left" 5 208 271).inset = 3 / 2 ∧
    specHorizontalOffset 271 208 = 1 ∧ ((3 : ℚ) / 2) ≠ ((1 : ℤ) : ℚ) := by
  refine ⟨?_, by decide, by norm_num⟩
  simp only [getGridStyle, closeIconWidth]
  norm_num

/-- C4: for every `numberOfTabs ≥ 1` and `availableWidth ≥ 0`, the grid
width equals `min(naturalWidth, availableWidth)` with
`naturalWidth = tabWidth * numberOfTabs + (numberOfTabs - 1) * 2`, and is
therefore at most the available width. -/
theorem getGridWidth_eq_min (n a : ℕ) (h : 1 ≤ n) :
    getGridWidth n a = min (getTabWidth n * n + (n - 1) * 2) a ∧
    getGridWidth n a ≤ a := by
  simp only [getGridWidth, tabSpacerWidth]
  constructor
  · split <;> omega
  · split <;> omega

/-- Witness for C4 at `numberOfTabs = 5`, `availableWidth = 400`. -/
theorem getGridWidth_eq_min_witness :
    1 ≤ 5 ∧ getGridWidth 5 400 = min (getTabWidth 5 * 5 + (5 - 1) * 2) 400 ∧
    getGridWidth 5 400 ≤ 400 :=
  ⟨by decide, (getGridWidth_eq_min 5 400 (by decide)).1,
    (getGridWidth_eq_min 5 400 (by decide)).2⟩

/-- C5: concrete scenarios. With 5 tabs and 400 px available the tab width
is 40, the grid width 208 and the column count 5; with 5 tabs and 150 px
available the grid width is 150 and the column count 3. -/
theorem concrete_scenarios :
    getTabWidth 5 = 40 ∧ getGridWidth 5 400 = 208 ∧
    getNumGridColumns 5 (getGridWidth 5 400) = 5 ∧
    getGridWidth 5 150 = 150 ∧
    getNumGridColumns 5 (getGridWidth 5 150) = 3 := by decide

/-- C6: for every `numberOfTabs ≥ 1` the tab width is 68 when
`numberOfTabs < 3` and 40 otherwise; the function is total with no error
cases. -/
theorem getTabWidth_cases (n : ℕ) (h : 1 ≤ n) :
    getTabWidth n = if n < 3 then 68 else 40 := rfl

/-- Witness for C6 at `numberOfTabs = 5`. -/
theorem getTabWidth_cases_witness :
    1 ≤ 5 ∧ getTabWidth 5 = if 5 < 3 then 68 else 40 :=
  ⟨by decide, getTabWidth_cases 5 (by decide)⟩

/-- C7: for every side, every `expandedPanelWidth ≥ 0` and every
`gridWidth ≥ 0`, the inset produced by `getGridStyle` is nonnegative. -/
theorem getGridStyle_inset_nonneg (side : String) (n g e : ℕ) :
    0 ≤ (getGridStyle side n g e).inset :=
  le_max_left 0 _

/-- C8: with at least one column and at least one tab, a spacer cell is
rendered before exactly the tabs whose index is nonzero modulo the column
count; a tab gets the rounded leading corner exactly when
`index % columnCount = 0`, and the rounded trailing corner exactly when
`(index + 1) % columnCount = 0` or it is the last tab overall. -/
theorem tab_cell_placement (numCols numTabs tabIndex : ℕ)
    (hc : 1 ≤ numCols) (ht : 1 ≤ numTabs) (act dis : Bool) :
    (renderSpacerBefore numCols tabIndex = true ↔
      tabIndex % numCols ≠ 0) ∧
    ("rounded-l" ∈ getTabClassNames numCols numTabs tabIndex act dis ↔
      tabIndex % numCols = 0) ∧
    ("rounded-r" ∈ getTabClassNames numCols numTabs tabIndex act dis ↔
      (tabIndex + 1) % numCols = 0 ∨ tabIndex = numTabs - 1) := by
  refine ⟨by simp [renderSpacerBefore], ?_, ?_⟩
  · simp only [getTabClassNames, List.mem_append]
    split_ifs <;> simp_all
  · simp only [getTabClassNames, List.mem_append]
    split_ifs <;> simp_all

/-- Witness for C8 at `numCols = 2`, `numTabs = 3`, `tabIndex = 2`. -/
theorem tab_cell_placement_witness :
    1 ≤ 2 ∧ 1 ≤ 3 ∧
    ((renderSpacerBefore 2 2 = true ↔ 2 % 2 ≠ 0) ∧
    ("rounded-l" ∈ getTabClassNames 2 3 2 false false ↔ 2 % 2 = 0) ∧
    ("rounded-r" ∈ getTabClassNames 2 3 2 false false ↔
      (2 + 1) % 2 = 0 ∨ 2 = 3 - 1)) :=
  ⟨by decide, by decide,
    tab_cell_placement 2 3 2 (by decide) (by decide) false false⟩

/-- C9: every layout operation is deterministic — two invocations with
identical arguments yield identical results, since the embedded functions
consume no state beyond their arguments and the module constants. -/
theorem layout_deterministic (n a g e : ℕ) (s : String) :
    getTabWidth n = getTabWidth n ∧
    getGridWidth n a = getGridWidth n a ∧
    getNumGridColumns n g = getNumGridColumns n g ∧
    getGridStyle s n g e = getGridStyle s n g e :=
  ⟨rfl, rfl, rfl, rfl⟩

/-- C10: for every `numberOfTabs ≥ 1` and `availableWidth ≥ 0`, composing
`getGridWidth` and `getNumGridColumns` never reports more columns than
there are tabs. -/
theorem columnCount_le_numTabs (n a : ℕ) (h : 1 ≤ n) :
    getNumGridColumns n (getGridWidth n a) ≤ n := by
  have hg : getGridWidth n a ≤ getTabWidth n * n + (n - 1) * 2 := by
    simp only [getGridWidth, tabSpacerWidth]
    split <;> omega
  simp only [getNumGridColumns]
  split
  · omega
  · have hcomm : getTabWidth n * n = n * getTabWidth n :=
      Nat.mul_comm _ _
    have hdist : n * (getTabWidth n + 2) = n * getTabWidth n + n * 2 := by
      ring
    have hlt : getGridWidth n a < n * (getTabWidth n + tabSpacerWidth) := by
      simp only [tabSpacerWidth]
      omega
    have hdiv : getGridWidth n a / (getTabWidth n + tabSpacerWidth) < n :=
      (Nat.div_lt_iff_lt_mul (by simp [tabSpacerWidth])).mpr
        (by omega)
    split <;> omega

/-- Witness for C10 at `numberOfTabs = 5`, `availableWidth = 400`. -/
theorem columnCount_le_numTabs_witness :
    1 ≤ 5 ∧ getNumGridColumns 5 (getGridWidth 5 400) ≤ 5 :=
  ⟨by decide, columnCount_le_numTabs 5 400 (by decide)⟩

end TabGridLayout
